import Mathlib

/-!
Shallow embedding of the two eBPF programs of this repository,
`src/cloud/kernel/ebpf/tcp_fingerprint.c` and `src/cloud/kernel/ebpf/tls_ja3.c`.

Modelling conventions:
* Machine integers (`__u8`, `__u16`, `__u32`, `__u64`) become `Nat`; a byte
  loaded from a packet buffer is reduced modulo 256 (`byte`), mirroring an
  8-bit load.  Counters never overflow in any claim considered, so `__u64`
  counters are plain `Nat`.
* A packet buffer `[data, data_end)` becomes a `List Nat` of its bytes;
  a C pointer into the buffer becomes a `Nat` offset from `data`;
  the C bounds check `ptr + k > data_end` becomes `off + k > buf.length`.
* `bpf_map_lookup_elem` on the per-pid hash maps becomes a function
  `Nat → Option Profile`.  The two statistics maps are `BPF_MAP_TYPE_ARRAY`
  maps with `max_entries = 1`: an in-range key of a BPF array map always
  yields a (preallocated, zero-initialised) slot, so their lookup is
  modelled by `..._stats_lookup slot key = if key < 1 then some slot else none`.
* `bpf_setsockopt` is external: its result is supplied by an oracle
  `Nat → Int` giving the return value of the n-th setsockopt call of the
  invocation.  Each issued call is recorded in a `List SockOptCall` log.
* An execution that would dereference a null/invalid pointer is modelled by
  `Option`: `none` marks the undefined behaviour, `some` the normal result.
* Each program invocation is a pure state transformer on the single
  statistics slot; concurrency is out of scope of the embedding (the source
  only touches shared state through single atomic fetch-and-add increments).
-/

/-- Address family AF_INET, as in `<linux/in.h>`. -/
def AF_INET : Nat := 2

/-- Address family AF_INET6. -/
def AF_INET6 : Nat := 10

/-- Socket type SOCK_STREAM. -/
def SOCK_STREAM : Nat := 1

/-- Byte-swap of a 16-bit value, `bpf_htons` on a little-endian host. -/
def bpf_htons (x : Nat) : Nat := (x % 256) * 256 + (x / 256 % 256)

/-- The `struct tcp_profile` of `tcp_fingerprint.c` (padding omitted).
All fields use the zero-sentinel convention: 0 (or false) means
"leave unmodified". -/
structure TcpProfile where
  window_size : Nat
  ttl : Nat
  mss : Nat
  window_scale : Nat
  sack_permitted : Nat
  timestamps : Nat
  no_delay : Nat
  initial_congestion_window : Nat
  ecn : Nat
  fast_open : Nat
deriving DecidableEq

/-- The `struct tcp_stats` single-slot statistics record of
`tcp_fingerprint.c`. -/
structure TcpStats where
  connections_modified : Nat
  packets_processed : Nat
  errors : Nat
deriving DecidableEq

/-- Lookup in the `stats` BPF array map of `tcp_fingerprint.c`
(`max_entries = 1`): an in-range key always finds the preallocated slot. -/
def tcp_stats_lookup (slot : TcpStats) (key : Nat) : Option TcpStats :=
  if key < 1 then some slot else none

/-- The `update_stats` helper of `tcp_fingerprint.c` (lines 62-76):
look the single stats slot up, return unchanged if the lookup fails,
otherwise fetch-and-add 1 to `errors` (on `error`) or to
`connections_modified`. -/
def update_stats (error : Bool) (st : TcpStats) : TcpStats :=
  match tcp_stats_lookup st 0 with
  | none => st
  | some _ =>
    if error then { st with errors := st.errors + 1 }
    else { st with connections_modified := st.connections_modified + 1 }

/-- One `bpf_setsockopt` mutation call issued by `tcp_fingerprint_spoof`,
identified by its (level, optname) pair in the source. -/
inductive SockOptCall where
  | windowClamp
  | ttlV4
  | ttlV6
  | maxseg
  | nodelay
  | ecn
deriving DecidableEq

/-- The TTL mutation selects `SOL_IP`/`IP_TTL` for AF_INET and
`SOL_IPV6`/`IPV6_UNICAST_HOPS` otherwise (lines 113-114). -/
def ttlCall (family : Nat) : SockOptCall :=
  if family = AF_INET then SockOptCall.ttlV4 else SockOptCall.ttlV6

/-- The socket-operation kinds handled by the `sockops` programs. -/
inductive SockOp where
  | connectCB
  | passiveEstablishedCB
  | activeEstablishedCB
  | other
deriving DecidableEq

/-- ECN step of the connect path (lines 144-148): if `profile->ecn` is
non-zero issue the TCP_ECN call, whose return value the source ignores;
then (line 150) `update_stats(0)` unconditionally. -/
def stepEcn (p : TcpProfile) (st : TcpStats) (calls : List SockOptCall) :
    TcpStats × List SockOptCall :=
  if p.ecn ≠ 0 then (update_stats false st, calls ++ [SockOptCall.ecn])
  else (update_stats false st, calls)

/-- TCP_NODELAY step (lines 134-142): on failure `update_stats(1)` but fall
through to the ECN step (no early return). `oracle n` is the return value
of the n-th setsockopt call of this invocation. -/
def stepNodelay (p : TcpProfile) (n : Nat) (oracle : Nat → Int)
    (st : TcpStats) (calls : List SockOptCall) : TcpStats × List SockOptCall :=
  if p.no_delay ≠ 0 then
    if oracle n ≠ 0 then stepEcn p (update_stats true st) (calls ++ [SockOptCall.nodelay])
    else stepEcn p st (calls ++ [SockOptCall.nodelay])
  else stepEcn p st calls

/-- TCP_MAXSEG step (lines 124-132): on failure `update_stats(1)` and
`return 0`, aborting the rest of the pass. -/
def stepMss (p : TcpProfile) (n : Nat) (oracle : Nat → Int)
    (st : TcpStats) (calls : List SockOptCall) : TcpStats × List SockOptCall :=
  if p.mss > 0 then
    if oracle n ≠ 0 then (update_stats true st, calls ++ [SockOptCall.maxseg])
    else stepNodelay p (n + 1) oracle st (calls ++ [SockOptCall.maxseg])
  else stepNodelay p n oracle st calls

/-- TTL step (lines 111-122): on failure `update_stats(1)` and `return 0`. -/
def stepTtl (p : TcpProfile) (family : Nat) (n : Nat) (oracle : Nat → Int)
    (st : TcpStats) (calls : List SockOptCall) : TcpStats × List SockOptCall :=
  if p.ttl > 0 then
    if oracle n ≠ 0 then (update_stats true st, calls ++ [ttlCall family])
    else stepMss p (n + 1) oracle st (calls ++ [ttlCall family])
  else stepMss p n oracle st calls

/-- TCP_WINDOW_CLAMP step (lines 101-109), head of the connect-path
mutation sequence: on failure `update_stats(1)` and `return 0`. -/
def stepWindow (p : TcpProfile) (family : Nat) (oracle : Nat → Int)
    (st : TcpStats) : TcpStats × List SockOptCall :=
  if p.window_size > 0 then
    if oracle 0 ≠ 0 then (update_stats true st, [SockOptCall.windowClamp])
    else stepTtl p family 1 oracle st [SockOptCall.windowClamp]
  else stepTtl p family 0 oracle st []

/-- The `tcp_fingerprint_spoof` sockops program (lines 79-178), returning
the updated stats slot and the log of issued setsockopt calls.  The int
return value of the program is the constant 0 on every path and is omitted. -/
def tcp_fingerprint_spoof (op : SockOp) (family : Nat) (pid : Nat)
    (tcp_profiles : Nat → Option TcpProfile) (oracle : Nat → Int)
    (st : TcpStats) : TcpStats × List SockOptCall :=
  if family ≠ AF_INET ∧ family ≠ AF_INET6 then (st, [])
  else
    match op with
    | SockOp.connectCB =>
      match tcp_profiles pid with
      | none => (st, [])
      | some profile => stepWindow profile family oracle st
    | SockOp.passiveEstablishedCB =>
      match tcp_profiles pid with
      | some profile =>
        if profile.window_size > 0 then (st, [SockOptCall.windowClamp])
        else (st, [])
      | none => (st, [])
    | SockOp.activeEstablishedCB =>
      (match tcp_stats_lookup st 0 with
       | some _ => { st with packets_processed := st.packets_processed + 1 }
       | none => st, [])
    | SockOp.other => (st, [])

/-- The `tcp_socket_create` cgroup hook (lines 181-192): returns 1 on every
path and touches no map. -/
def tcp_socket_create (family stype : Nat) : Int :=
  if family ≠ AF_INET ∧ family ≠ AF_INET6 then 1
  else if stype ≠ SOCK_STREAM then 1
  else 1

/-- The `struct ja3_profile` of `tls_ja3.c`, with the bounded arrays as
lists plus their explicit counts (padding omitted). -/
structure Ja3Profile where
  tls_version : Nat
  cipher_count : Nat
  ciphers : List Nat
  extension_count : Nat
  extensions : List Nat
  curve_count : Nat
  curves : List Nat
  format_count : Nat
  formats : List Nat
  enabled : Nat
deriving DecidableEq

/-- The `struct ja3_stats` single-slot statistics record of `tls_ja3.c`. -/
structure Ja3Stats where
  client_hello_seen : Nat
  client_hello_modified : Nat
  errors : Nat
  packets_passed : Nat
deriving DecidableEq

/-- Which `ja3_stats` field a counter pointer refers to. -/
inductive Ja3Counter where
  | seen
  | modified
  | errs
  | passed
deriving DecidableEq

/-- Lookup in the `ja3_stats_map` BPF array map (`max_entries = 1`): an
in-range key always finds the preallocated slot. -/
def ja3_stats_lookup (slot : Ja3Stats) (key : Nat) : Option Ja3Stats :=
  if key < 1 then some slot else none

/-- The counter pointer built at the three statistics call sites of
`tls_ja3.c` (lines 158, 195, 259): the address of one field of the record
returned by `bpf_map_lookup_elem(&ja3_stats_map, &(__u32){0})`, with no
null check at the site.  A `none` result would be a field of the null
pointer. -/
def counter_site_ptr (st : Ja3Stats) (c : Ja3Counter) : Option Ja3Counter :=
  (ja3_stats_lookup st 0).map fun _ => c

/-- Atomic `__sync_fetch_and_add(counter, 1)` on one field of the stats
slot. -/
def ja3_fetch_add (c : Ja3Counter) (st : Ja3Stats) : Ja3Stats :=
  match c with
  | Ja3Counter.seen =>
    { st with client_hello_seen := st.client_hello_seen + 1 }
  | Ja3Counter.modified =>
    { st with client_hello_modified := st.client_hello_modified + 1 }
  | Ja3Counter.errs => { st with errors := st.errors + 1 }
  | Ja3Counter.passed => { st with packets_passed := st.packets_passed + 1 }

/-- The `update_ja3_stats` helper of `tls_ja3.c` (lines 90-99): it guards
on its own fresh lookup of the stats map, then fetch-and-adds through the
`counter` pointer passed by the caller.  Executing the fetch-and-add on a
null-derived pointer is undefined behaviour, modelled as `none`. -/
def update_ja3_stats (counter : Option Ja3Counter) (st : Ja3Stats) :
    Option Ja3Stats :=
  match ja3_stats_lookup st 0 with
  | some _ =>
    match counter with
    | some c => some (ja3_fetch_add c st)
    | none => none
  | none => some st

/-- One byte of the packet buffer, as an 8-bit load at offset `i` from
`data` (out-of-range offsets yield 0; the safety theorems show the parser
never uses one). -/
def byte (buf : List Nat) (i : Nat) : Nat := buf.getD i 0 % 256

/-- Value of a 16-bit field stored in network byte order at bytes
`(hi, lo)`; comparing it with a host constant matches the source's
comparison of the raw field with `bpf_htons` of that constant. -/
def be16 (hi lo : Nat) : Nat := hi * 256 + lo

/-- Ethertype of IPv4, `ETH_P_IP`. -/
def ETH_P_IP : Nat := 0x0800

/-- IP protocol number of TCP. -/
def IPPROTO_TCP : Nat := 6

/-- TLS record content type of handshake records. -/
def TLS_HANDSHAKE : Nat := 0x16

/-- TLS handshake message type of ClientHello. -/
def TLS_CLIENT_HELLO : Nat := 0x01

/-- Offset of the TCP header: `(void *)ip + ip->ihl * 4` (line 130), with
the Ethernet header 14 bytes and `ihl` the low nibble of the first IP
header byte. -/
def tcpOff (buf : List Nat) : Nat := 14 + (byte buf 14 % 16) * 4

/-- Offset of the TCP payload: `(void *)tcp + tcp->doff * 4` (line 139),
with `doff` the high nibble of byte 12 of the TCP header. -/
def payOff (buf : List Nat) : Nat :=
  tcpOff buf + (byte buf (tcpOff buf + 12) / 16) * 4

/-- TLS-handshake stage of `parse_tls_client_hello` (lines 149-174):
bounds check `handshake + 1 > data_end`, read `handshake->msg_type`,
require ClientHello, then the ClientHello-seen statistics update and
`return 1`.  `reads` is the log of offsets dereferenced so far; each stage
returns `(some (r, st'), reads')` with `r` the C return value, or `none`
marking undefined behaviour. -/
def parseTlsHandshake (buf : List Nat) (st : Ja3Stats) (reads : List Nat) :
    Option (Nat × Ja3Stats) × List Nat :=
  if payOff buf + 5 + 4 > buf.length then (some (0, st), reads)
  else if byte buf (payOff buf + 5) ≠ TLS_CLIENT_HELLO then
    (some (0, st), reads ++ [payOff buf + 5])
  else
    ((update_ja3_stats (counter_site_ptr st Ja3Counter.seen) st).map
       fun st1 => (1, st1),
     reads ++ [payOff buf + 5])

/-- TLS-record stage of `parse_tls_client_hello` (lines 138-147): read
`tcp->doff` (the high nibble of TCP header byte 12) to compute the payload
offset, bounds check `payload + sizeof(struct tls_record) > data_end`,
read `tls->content_type`, require a handshake record. -/
def parseTlsRecord (buf : List Nat) (st : Ja3Stats) (reads : List Nat) :
    Option (Nat × Ja3Stats) × List Nat :=
  if payOff buf + 5 > buf.length then (some (0, st), reads ++ [tcpOff buf + 12])
  else if byte buf (payOff buf) ≠ TLS_HANDSHAKE then
    (some (0, st), reads ++ [tcpOff buf + 12, payOff buf])
  else parseTlsHandshake buf st (reads ++ [tcpOff buf + 12, payOff buf])

/-- TCP stage of `parse_tls_client_hello` (lines 130-136): read `ip->ihl`
(the low nibble of IP header byte 0, offset 14) to compute the TCP header
offset, bounds check `tcp + 1 > data_end`, read `tcp->dest`, require
destination port 443. -/
def parseTcp (buf : List Nat) (st : Ja3Stats) (reads : List Nat) :
    Option (Nat × Ja3Stats) × List Nat :=
  if tcpOff buf + 20 > buf.length then (some (0, st), reads ++ [14])
  else if be16 (byte buf (tcpOff buf + 2)) (byte buf (tcpOff buf + 3)) ≠ 443 then
    (some (0, st), reads ++ [14, tcpOff buf + 2, tcpOff buf + 3])
  else parseTlsRecord buf st (reads ++ [14, tcpOff buf + 2, tcpOff buf + 3])

/-- IPv4 stage of `parse_tls_client_hello` (lines 122-128): bounds check
`ip + 1 > data_end`, read `ip->protocol` (offset 23), require TCP. -/
def parseIp (buf : List Nat) (st : Ja3Stats) (reads : List Nat) :
    Option (Nat × Ja3Stats) × List Nat :=
  if 14 + 20 > buf.length then (some (0, st), reads)
  else if byte buf 23 ≠ IPPROTO_TCP then (some (0, st), reads ++ [23])
  else parseTcp buf st (reads ++ [23])

/-- The `parse_tls_client_hello` function of `tls_ja3.c` (lines 102-175):
Ethernet stage (bounds check `eth + 1 > data_end`, read `eth->h_proto` at
offsets 12-13, require IPv4), then the IPv4/TCP/TLS-record/TLS-handshake
stages.  Returns `(some (r, st'), reads)` with `r` the C return value
(1 on ClientHello match, 0 otherwise), `st'` the stats slot after the
ClientHello-seen update, and `reads` the ordered list of buffer offsets
dereferenced; a `none` first component would mark undefined behaviour.
Every C bounds check appears before the reads it guards, in source
order. -/
def parse_tls_client_hello (buf : List Nat) (st : Ja3Stats) :
    Option (Nat × Ja3Stats) × List Nat :=
  if 14 > buf.length then (some (0, st), [])
  else if be16 (byte buf 12) (byte buf 13) ≠ ETH_P_IP then
    (some (0, st), [12, 13])
  else parseIp buf st [12, 13]

/-- The `ja3_socket_filter` socket program of `tls_ja3.c` (lines 178-200).
First component: `some (verdict, stats)` (`none` would mark undefined
behaviour); second: the buffer offsets read. -/
def ja3_socket_filter (pid : Nat) (ja3_profiles : Nat → Option Ja3Profile)
    (buf : List Nat) (st : Ja3Stats) : Option (Int × Ja3Stats) × List Nat :=
  match ja3_profiles pid with
  | none => (some (0, st), [])
  | some profile =>
    if profile.enabled = 0 then (some (0, st), [])
    else
      match parse_tls_client_hello buf st with
      | (none, reads) => (none, reads)
      | (some (ret, st1), reads) =>
        if ret ≠ 0 then
          ((update_ja3_stats (counter_site_ptr st1 Ja3Counter.modified) st1).map
             fun st2 => (0, st2), reads)
        else (some (0, st1), reads)

/-- The TC verdict `TC_ACT_OK`. -/
def TC_ACT_OK : Int := 0

/-- The `ja3_tc_egress` classifier program of `tls_ja3.c` (lines 203-233):
detection only, no statistics update on this path, always `TC_ACT_OK`. -/
def ja3_tc_egress (pid : Nat) (ja3_profiles : Nat → Option Ja3Profile)
    (buf : List Nat) (st : Ja3Stats) : Option (Int × Ja3Stats) × List Nat :=
  match ja3_profiles pid with
  | none => (some (TC_ACT_OK, st), [])
  | some profile =>
    if profile.enabled = 0 then (some (TC_ACT_OK, st), [])
    else
      match parse_tls_client_hello buf st with
      | (none, reads) => (none, reads)
      | (some (_, st1), reads) => (some (TC_ACT_OK, st1), reads)

/-- The `ja3_sockops` program of `tls_ja3.c` (lines 236-268).
`remote_port` is the raw `skops->remote_port` field (network byte order),
compared against `bpf_htons(443)` as in the source. -/
def ja3_sockops (op : SockOp) (family remote_port pid : Nat)
    (ja3_profiles : Nat → Option Ja3Profile) (st : Ja3Stats) :
    Option (Int × Ja3Stats) :=
  if family ≠ AF_INET ∧ family ≠ AF_INET6 then some (0, st)
  else if remote_port ≠ bpf_htons 443 then some (0, st)
  else
    match op with
    | SockOp.connectCB =>
      match ja3_profiles pid with
      | some profile =>
        if profile.enabled ≠ 0 then
          (update_ja3_stats (counter_site_ptr st Ja3Counter.passed) st).map
            fun st1 => (0, st1)
        else some (0, st)
      | none => some (0, st)
    | _ => some (0, st)

/-- Pointwise order on the TCP statistics record: no counter decreased. -/
def TcpStatsLE (a b : TcpStats) : Prop :=
  a.connections_modified ≤ b.connections_modified ∧
  a.packets_processed ≤ b.packets_processed ∧
  a.errors ≤ b.errors

/-- Pointwise order on the TLS statistics record: no counter decreased. -/
def Ja3StatsLE (a b : Ja3Stats) : Prop :=
  a.client_hello_seen ≤ b.client_hello_seen ∧
  a.client_hello_modified ≤ b.client_hello_modified ∧
  a.errors ≤ b.errors ∧
  a.packets_passed ≤ b.packets_passed

/-- Whether a given setsockopt call corresponds to a non-sentinel
(configured) field of the profile, per the guards of the connect path. -/
def CallConfigured (p : TcpProfile) : SockOptCall → Prop
  | SockOptCall.windowClamp => p.window_size > 0
  | SockOptCall.ttlV4 => p.ttl > 0
  | SockOptCall.ttlV6 => p.ttl > 0
  | SockOptCall.maxseg => p.mss > 0
  | SockOptCall.nodelay => p.no_delay ≠ 0
  | SockOptCall.ecn => p.ecn ≠ 0

/-- The full ordered sequence of setsockopt calls the connect path issues
when no call fails: one per configured field among the five the source
supports, in source order. -/
def configuredCalls (p : TcpProfile) (family : Nat) : List SockOptCall :=
  (if p.window_size > 0 then [SockOptCall.windowClamp] else []) ++
  (if p.ttl > 0 then [ttlCall family] else []) ++
  (if p.mss > 0 then [SockOptCall.maxseg] else []) ++
  (if p.no_delay ≠ 0 then [SockOptCall.nodelay] else []) ++
  (if p.ecn ≠ 0 then [SockOptCall.ecn] else [])

/-- Number of setsockopt calls issued before the TTL call of the connect
path (the window-clamp call, when configured). -/
def nCallsBeforeTtl (p : TcpProfile) : Nat :=
  if p.window_size > 0 then 1 else 0

/-- Number of setsockopt calls issued before the MSS call of the connect
path. -/
def nCallsBeforeMss (p : TcpProfile) : Nat :=
  nCallsBeforeTtl p + (if p.ttl > 0 then 1 else 0)

/-- Number of setsockopt calls issued before the no-delay call of the
connect path. -/
def nCallsBeforeNodelay (p : TcpProfile) : Nat :=
  nCallsBeforeMss p + (if p.mss > 0 then 1 else 0)

/-- Structural well-formedness of a frame for the parser: every bounds
check of `parse_tls_client_hello` passes and the Ethernet/IPv4/TCP
dispatch fields hold IPv4-over-Ethernet carrying TCP; the destination
port, TLS content type and handshake message type are left free. -/
def WellFormedFrame (buf : List Nat) : Prop :=
  14 ≤ buf.length ∧
  be16 (byte buf 12) (byte buf 13) = ETH_P_IP ∧
  34 ≤ buf.length ∧
  byte buf 23 = IPPROTO_TCP ∧
  tcpOff buf + 20 ≤ buf.length ∧
  payOff buf + 5 ≤ buf.length ∧
  payOff buf + 9 ≤ buf.length

instance (buf : List Nat) : Decidable (WellFormedFrame buf) := by
  unfold WellFormedFrame
  infer_instance

/-- A minimal well-formed Ethernet/IPv4/TCP frame to destination port 443
carrying a TLS handshake record (content type 0x16) with a ClientHello
header (message type 0x01): 14 + 20 + 20 + 5 + 4 = 63 bytes. -/
def clientHelloFrame : List Nat :=
  [0, 0, 0, 0, 0, 0, 0, 0, 0, 0, 0, 0, 8, 0,
   0x45, 0, 0, 0, 0, 0, 0, 0, 0, 6, 0, 0, 0, 0, 0, 0, 0, 0, 0, 0,
   0, 0, 1, 187, 0, 0, 0, 0, 0, 0, 0, 0, 0x50, 0, 0, 0, 0, 0, 0, 0,
   0x16, 3, 3, 0, 4,
   1, 0, 0, 0]

/-- `clientHelloFrame` with the TLS record content type (offset 54)
changed to 0x17 (application data). -/
def appDataFrame : List Nat := clientHelloFrame.set 54 0x17

/-- `clientHelloFrame` with the TCP destination port (offsets 36-37)
changed to 80. -/
def port80Frame : List Nat := (clientHelloFrame.set 36 0).set 37 80

/-- A TCP profile whose only non-sentinel field is `sack_permitted`. -/
def sackOnlyProfile : TcpProfile := ⟨0, 0, 0, 0, 1, 0, 0, 0, 0, 0⟩

/-- A TCP profile configuring the window clamp and the TTL. -/
def windowTtlProfile : TcpProfile := ⟨1, 64, 0, 0, 0, 0, 0, 0, 0, 0⟩

/-- The TCP profile of the spec's testable property:
mss = 1460, ttl = 64, window_size = 0, everything else sentinel. -/
def mssTtlProfile : TcpProfile := ⟨0, 64, 1460, 0, 0, 0, 0, 0, 0, 0⟩

/-- A JA3 profile with the enabled flag set. -/
def enabledJa3Profile : Ja3Profile := ⟨0x0303, 0, [], 0, [], 0, [], 0, [], 1⟩

/-- A JA3 profile with the enabled flag clear. -/
def disabledJa3Profile : Ja3Profile := ⟨0x0303, 0, [], 0, [], 0, [], 0, [], 0⟩

/-- The zero TCP statistics slot. -/
def tcpStatsZero : TcpStats := ⟨0, 0, 0⟩

/-- The zero TLS statistics slot. -/
def ja3StatsZero : Ja3Stats := ⟨0, 0, 0, 0⟩

theorem update_stats_true_eq (st : TcpStats) :
    update_stats true st = { st with errors := st.errors + 1 } := rfl

theorem update_stats_false_eq (st : TcpStats) :
    update_stats false st =
      { st with connections_modified := st.connections_modified + 1 } := rfl

theorem ja3_site_update_eq (st : Ja3Stats) (c : Ja3Counter) :
    update_ja3_stats (counter_site_ptr st c) st = some (ja3_fetch_add c st) := rfl

theorem tcpStatsLE_refl (a : TcpStats) : TcpStatsLE a a :=
  ⟨Nat.le_refl _, Nat.le_refl _, Nat.le_refl _⟩

theorem tcpStatsLE_trans {a b c : TcpStats} (h1 : TcpStatsLE a b)
    (h2 : TcpStatsLE b c) : TcpStatsLE a c :=
  ⟨Nat.le_trans h1.1 h2.1, Nat.le_trans h1.2.1 h2.2.1, Nat.le_trans h1.2.2 h2.2.2⟩

theorem ja3StatsLE_refl (a : Ja3Stats) : Ja3StatsLE a a :=
  ⟨Nat.le_refl _, Nat.le_refl _, Nat.le_refl _, Nat.le_refl _⟩

theorem ja3StatsLE_trans {a b c : Ja3Stats} (h1 : Ja3StatsLE a b)
    (h2 : Ja3StatsLE b c) : Ja3StatsLE a c :=
  ⟨Nat.le_trans h1.1 h2.1, Nat.le_trans h1.2.1 h2.2.1,
   Nat.le_trans h1.2.2.1 h2.2.2.1, Nat.le_trans h1.2.2.2 h2.2.2.2⟩

theorem update_stats_le (e : Bool) (st : TcpStats) :
    TcpStatsLE st (update_stats e st) := by
  cases e
  · exact ⟨Nat.le_succ _, Nat.le_refl _, Nat.le_refl _⟩
  · exact ⟨Nat.le_refl _, Nat.le_refl _, Nat.le_succ _⟩

theorem ja3_fetch_add_le (c : Ja3Counter) (st : Ja3Stats) :
    Ja3StatsLE st (ja3_fetch_add c st) := by
  cases c
  · exact ⟨Nat.le_succ _, Nat.le_refl _, Nat.le_refl _, Nat.le_refl _⟩
  · exact ⟨Nat.le_refl _, Nat.le_succ _, Nat.le_refl _, Nat.le_refl _⟩
  · exact ⟨Nat.le_refl _, Nat.le_refl _, Nat.le_succ _, Nat.le_refl _⟩
  · exact ⟨Nat.le_refl _, Nat.le_refl _, Nat.le_refl _, Nat.le_succ _⟩

theorem parseTlsHandshake_fst_cases (buf : List Nat) (st : Ja3Stats)
    (reads : List Nat) :
    (parseTlsHandshake buf st reads).1 = some (0, st) ∨
    (parseTlsHandshake buf st reads).1 =
      some (1, ja3_fetch_add Ja3Counter.seen st) := by
  unfold parseTlsHandshake
  split_ifs <;> first | exact Or.inl rfl | exact Or.inr rfl

theorem parseTlsRecord_fst_cases (buf : List Nat) (st : Ja3Stats)
    (reads : List Nat) :
    (parseTlsRecord buf st reads).1 = some (0, st) ∨
    (parseTlsRecord buf st reads).1 =
      some (1, ja3_fetch_add Ja3Counter.seen st) := by
  unfold parseTlsRecord
  split_ifs <;>
    first
      | exact Or.inl rfl
      | exact parseTlsHandshake_fst_cases buf st _

theorem parseTcp_fst_cases (buf : List Nat) (st : Ja3Stats)
    (reads : List Nat) :
    (parseTcp buf st reads).1 = some (0, st) ∨
    (parseTcp buf st reads).1 =
      some (1, ja3_fetch_add Ja3Counter.seen st) := by
  unfold parseTcp
  split_ifs <;>
    first
      | exact Or.inl rfl
      | exact parseTlsRecord_fst_cases buf st _

theorem parseIp_fst_cases (buf : List Nat) (st : Ja3Stats)
    (reads : List Nat) :
    (parseIp buf st reads).1 = some (0, st) ∨
    (parseIp buf st reads).1 =
      some (1, ja3_fetch_add Ja3Counter.seen st) := by
  unfold parseIp
  split_ifs <;>
    first
      | exact Or.inl rfl
      | exact parseTcp_fst_cases buf st _

theorem parse_result_cases (buf : List Nat) (st : Ja3Stats) :
    (parse_tls_client_hello buf st).1 = some (0, st) ∨
    (parse_tls_client_hello buf st).1 =
      some (1, ja3_fetch_add Ja3Counter.seen st) := by
  unfold parse_tls_client_hello
  split_ifs <;>
    first
      | exact Or.inl rfl
      | exact parseIp_fst_cases buf st _

theorem parseTlsHandshake_reads_lt (buf : List Nat) (st : Ja3Stats)
    (reads : List Nat) (h : ∀ j ∈ reads, j < buf.length) :
    ∀ i ∈ (parseTlsHandshake buf st reads).2, i < buf.length := by
  intro i hi
  unfold parseTlsHandshake at hi
  split_ifs at hi with h1 h2
  · exact h i hi
  · rcases List.mem_append.1 hi with hi | hi
    · exact h i hi
    · simp at hi
      omega
  · rcases List.mem_append.1 hi with hi | hi
    · exact h i hi
    · simp at hi
      omega

theorem parseTlsRecord_reads_lt (buf : List Nat) (st : Ja3Stats)
    (reads : List Nat) (h : ∀ j ∈ reads, j < buf.length)
    (htcp : tcpOff buf + 20 ≤ buf.length) :
    ∀ i ∈ (parseTlsRecord buf st reads).2, i < buf.length := by
  intro i hi
  unfold parseTlsRecord at hi
  split_ifs at hi with h1 h2
  · rcases List.mem_append.1 hi with hi | hi
    · exact h i hi
    · simp at hi
      omega
  · rcases List.mem_append.1 hi with hi | hi
    · exact h i hi
    · simp at hi
      rcases hi with hi | hi <;> omega
  · refine parseTlsHandshake_reads_lt buf st _ ?_ i hi
    intro j hj
    rcases List.mem_append.1 hj with hj | hj
    · exact h j hj
    · simp at hj
      rcases hj with hj | hj <;> omega

theorem parseTcp_reads_lt (buf : List Nat) (st : Ja3Stats)
    (reads : List Nat) (h : ∀ j ∈ reads, j < buf.length)
    (hip : 14 + 20 ≤ buf.length) :
    ∀ i ∈ (parseTcp buf st reads).2, i < buf.length := by
  intro i hi
  unfold parseTcp at hi
  split_ifs at hi with h1 h2
  · rcases List.mem_append.1 hi with hi | hi
    · exact h i hi
    · simp at hi
      omega
  · rcases List.mem_append.1 hi with hi | hi
    · exact h i hi
    · simp at hi
      rcases hi with hi | hi | hi <;> omega
  · refine parseTlsRecord_reads_lt buf st _ ?_ (by omega) i hi
    intro j hj
    rcases List.mem_append.1 hj with hj | hj
    · exact h j hj
    · simp at hj
      rcases hj with hj | hj | hj <;> omega

theorem parseIp_reads_lt (buf : List Nat) (st : Ja3Stats)
    (reads : List Nat) (h : ∀ j ∈ reads, j < buf.length) :
    ∀ i ∈ (parseIp buf st reads).2, i < buf.length := by
  intro i hi
  unfold parseIp at hi
  split_ifs at hi with h1 h2
  · exact h i hi
  · rcases List.mem_append.1 hi with hi | hi
    · exact h i hi
    · simp at hi
      omega
  · refine parseTcp_reads_lt buf st _ ?_ (by omega) i hi
    intro j hj
    rcases List.mem_append.1 hj with hj | hj
    · exact h j hj
    · simp at hj
      omega

theorem parse_reads_lt (buf : List Nat) (st : Ja3Stats) :
    ∀ i ∈ (parse_tls_client_hello buf st).2, i < buf.length := by
  intro i hi
  unfold parse_tls_client_hello at hi
  split_ifs at hi with h1 h2
  · simp at hi
  · simp at hi
    omega
  · refine parseIp_reads_lt buf st _ ?_ i hi
    intro j hj
    simp at hj
    omega

theorem parseTlsHandshake_match_inv (buf : List Nat) (st x : Ja3Stats)
    (reads : List Nat)
    (hm : (parseTlsHandshake buf st reads).1 = some (1, x)) :
    payOff buf + 9 ≤ buf.length ∧
    byte buf (payOff buf + 5) = TLS_CLIENT_HELLO := by
  unfold parseTlsHandshake at hm
  split_ifs at hm with h1 h2
  · simp at hm
  · simp at hm
  · exact ⟨by omega, by omega⟩

theorem parseTlsRecord_match_inv (buf : List Nat) (st x : Ja3Stats)
    (reads : List Nat)
    (hm : (parseTlsRecord buf st reads).1 = some (1, x)) :
    payOff buf + 5 ≤ buf.length ∧
    byte buf (payOff buf) = TLS_HANDSHAKE ∧
    (parseTlsHandshake buf st (reads ++ [tcpOff buf + 12, payOff buf])).1 =
      some (1, x) := by
  unfold parseTlsRecord at hm
  split_ifs at hm with h1 h2
  · simp at hm
  · simp at hm
  · exact ⟨by omega, by omega, hm⟩

theorem parseTcp_match_inv (buf : List Nat) (st x : Ja3Stats)
    (reads : List Nat)
    (hm : (parseTcp buf st reads).1 = some (1, x)) :
    tcpOff buf + 20 ≤ buf.length ∧
    be16 (byte buf (tcpOff buf + 2)) (byte buf (tcpOff buf + 3)) = 443 ∧
    (parseTlsRecord buf st
        (reads ++ [14, tcpOff buf + 2, tcpOff buf + 3])).1 = some (1, x) := by
  unfold parseTcp at hm
  split_ifs at hm with h1 h2
  · simp at hm
  · simp at hm
  · exact ⟨by omega, by omega, hm⟩

theorem parseIp_match_inv (buf : List Nat) (st x : Ja3Stats)
    (reads : List Nat)
    (hm : (parseIp buf st reads).1 = some (1, x)) :
    14 + 20 ≤ buf.length ∧
    byte buf 23 = IPPROTO_TCP ∧
    (parseTcp buf st (reads ++ [23])).1 = some (1, x) := by
  unfold parseIp at hm
  split_ifs at hm with h1 h2
  · simp at hm
  · simp at hm
  · exact ⟨by omega, by omega, hm⟩

theorem parse_match_inv (buf : List Nat) (st x : Ja3Stats)
    (hm : (parse_tls_client_hello buf st).1 = some (1, x)) :
    14 ≤ buf.length ∧
    be16 (byte buf 12) (byte buf 13) = ETH_P_IP ∧
    (parseIp buf st [12, 13]).1 = some (1, x) := by
  unfold parse_tls_client_hello at hm
  split_ifs at hm with h1 h2
  · simp at hm
  · simp at hm
  · exact ⟨by omega, by omega, hm⟩

theorem parse_match_wellformed (buf : List Nat) (st x : Ja3Stats)
    (hm : (parse_tls_client_hello buf st).1 = some (1, x)) :
    WellFormedFrame buf := by
  obtain ⟨h1, h2, hm1⟩ := parse_match_inv buf st x hm
  obtain ⟨h3, h4, hm2⟩ := parseIp_match_inv buf st x _ hm1
  obtain ⟨h5, h6, hm3⟩ := parseTcp_match_inv buf st x _ hm2
  obtain ⟨h7, h8, hm4⟩ := parseTlsRecord_match_inv buf st x _ hm3
  obtain ⟨h9, h10⟩ := parseTlsHandshake_match_inv buf st x _ hm4
  exact ⟨h1, h2, h3, h4, h5, h7, h9⟩

/-- C2: on every input buffer (truncated, empty or adversarial alike) the
packet parser dereferences only offsets strictly below the buffer end;
a buffer shorter than the 14-byte Ethernet header is rejected with
no-match before any read; and any outcome other than no-match requires
every per-structure bounds check (Ethernet, IPv4, TCP, TLS record, TLS
handshake) to have passed. -/
theorem parse_never_reads_past_end (buf : List Nat) (st : Ja3Stats) :
    (∀ i ∈ (parse_tls_client_hello buf st).2, i < buf.length) ∧
    (buf.length < 14 → parse_tls_client_hello buf st = (some (0, st), [])) ∧
    ((parse_tls_client_hello buf st).1 = some (0, st) ∨
      (WellFormedFrame buf ∧
        (parse_tls_client_hello buf st).1 =
          some (1, ja3_fetch_add Ja3Counter.seen st))) := by
  refine ⟨parse_reads_lt buf st, ?_, ?_⟩
  · intro hshort
    unfold parse_tls_client_hello
    rw [if_pos (by omega)]
  · rcases parse_result_cases buf st with h | h
    · exact Or.inl h
    · exact Or.inr ⟨parse_match_wellformed buf st _ h, h⟩

/-- Witness for C2 at concrete inputs: a read offset of the full
ClientHello frame is in bounds, and the empty buffer is rejected with no
reads. -/
theorem parse_never_reads_past_end_witness :
    12 < clientHelloFrame.length ∧
    parse_tls_client_hello [] ja3StatsZero = (some (0, ja3StatsZero), []) :=
  ⟨(parse_never_reads_past_end clientHelloFrame ja3StatsZero).1 12 (by decide),
   (parse_never_reads_past_end [] ja3StatsZero).2.1 (by decide)⟩

/-- C10: at every TLS-side statistics call site the counter pointer built
from the call-site lookup of the single-slot `ja3_stats_map` array map is
non-null for every state of the map, and the increment helper therefore
always executes the fetch-and-add rather than dereferencing null. -/
theorem ja3_stats_counter_ptr_nonnull (st : Ja3Stats) :
    (counter_site_ptr st Ja3Counter.seen).isSome = true ∧
    (counter_site_ptr st Ja3Counter.modified).isSome = true ∧
    (counter_site_ptr st Ja3Counter.passed).isSome = true ∧
    (∀ c : Ja3Counter, update_ja3_stats (counter_site_ptr st c) st =
      some (ja3_fetch_add c st)) :=
  ⟨rfl, rfl, rfl, fun _ => rfl⟩

/-- C8: a TCP profile with every field at its zero-sentinel makes the
outbound-connect handler issue zero setsockopt calls and leave the error
counter unchanged. -/
theorem all_sentinel_profile_no_calls_no_errors (family pid : Nat)
    (profiles : Nat → Option TcpProfile) (oracle : Nat → Int) (st : TcpStats)
    (p : TcpProfile) (hp : profiles pid = some p)
    (hw : p.window_size = 0) (ht : p.ttl = 0) (hm : p.mss = 0)
    (hws : p.window_scale = 0) (hsa : p.sack_permitted = 0)
    (hts : p.timestamps = 0) (hn : p.no_delay = 0)
    (hic : p.initial_congestion_window = 0) (he : p.ecn = 0)
    (hf : p.fast_open = 0) :
    (tcp_fingerprint_spoof SockOp.connectCB family pid profiles oracle st).2 = [] ∧
    (tcp_fingerprint_spoof SockOp.connectCB family pid profiles oracle st).1.errors
      = st.errors := by
  unfold tcp_fingerprint_spoof
  split_ifs with hfam
  · exact ⟨rfl, rfl⟩
  · rw [hp]
    simp only [stepWindow, stepTtl, stepMss, stepNodelay, stepEcn,
      hw, ht, hm, hn, he, update_stats_false_eq]
    simp

/-- Witness for C8 at a concrete all-sentinel profile. -/
theorem all_sentinel_profile_no_calls_no_errors_witness :
    (tcp_fingerprint_spoof SockOp.connectCB 2 0
      (fun _ => some ⟨0, 0, 0, 0, 0, 0, 0, 0, 0, 0⟩) (fun _ => 1)
      tcpStatsZero).2 = [] ∧
    (tcp_fingerprint_spoof SockOp.connectCB 2 0
      (fun _ => some ⟨0, 0, 0, 0, 0, 0, 0, 0, 0, 0⟩) (fun _ => 1)
      tcpStatsZero).1.errors = tcpStatsZero.errors :=
  all_sentinel_profile_no_calls_no_errors 2 0 _ _ tcpStatsZero
    ⟨0, 0, 0, 0, 0, 0, 0, 0, 0, 0⟩ rfl rfl rfl rfl rfl rfl rfl rfl rfl rfl rfl

/-- C6: on a passive-accept event the handler leaves every statistics
counter unchanged, issues at most the window-clamp call, and issues it
only when a profile is present with a non-zero window_size. -/
theorem passive_accept_window_only_no_stats (family pid : Nat)
    (profiles : Nat → Option TcpProfile) (oracle : Nat → Int) (st : TcpStats) :
    (tcp_fingerprint_spoof SockOp.passiveEstablishedCB family pid profiles
        oracle st).1 = st ∧
    ((tcp_fingerprint_spoof SockOp.passiveEstablishedCB family pid profiles
        oracle st).2 = [] ∨
      (tcp_fingerprint_spoof SockOp.passiveEstablishedCB family pid profiles
        oracle st).2 = [SockOptCall.windowClamp]) ∧
    ((tcp_fingerprint_spoof SockOp.passiveEstablishedCB family pid profiles
        oracle st).2 = [SockOptCall.windowClamp] →
      ∃ p, profiles pid = some p ∧ p.window_size > 0) := by
  unfold tcp_fingerprint_spoof
  split_ifs with hfam
  · exact ⟨rfl, Or.inl rfl, by simp⟩
  · cases hp : profiles pid with
    | none => exact ⟨rfl, Or.inl rfl, by simp⟩
    | some p =>
      by_cases hw : p.window_size > 0
      · refine ⟨?_, Or.inr ?_, fun _ => ⟨p, rfl, hw⟩⟩ <;> simp [hw]
      · refine ⟨?_, Or.inl ?_, ?_⟩ <;> simp [hw]

/-- Witness for C6: with a present profile with non-zero window_size the
issued-call log is exactly the window clamp, so the profile part of the
conclusion is realised. -/
theorem passive_accept_window_only_no_stats_witness :
    ∃ p, (fun _ : Nat => some windowTtlProfile) 0 = some p ∧
      p.window_size > 0 :=
  (passive_accept_window_only_no_stats 2 0 (fun _ => some windowTtlProfile)
    (fun _ => 0) tcpStatsZero).2.2 (by decide)

/-- C7: a missing profile is a no-op pass-through, not an error: the
outbound-connect handler issues no call and touches no counter, and the
two packet-path programs return their pass verdict with no parse (no
buffer offset read); the same short-circuit applies when the JA3 profile
exists but is not enabled. -/
theorem lookup_miss_noop_passthrough (family pid : Nat)
    (tcp_profiles : Nat → Option TcpProfile)
    (ja3_profiles : Nat → Option Ja3Profile) (oracle : Nat → Int)
    (buf : List Nat) (tst : TcpStats) (jst : Ja3Stats) :
    (tcp_profiles pid = none →
      tcp_fingerprint_spoof SockOp.connectCB family pid tcp_profiles oracle tst
        = (tst, [])) ∧
    (ja3_profiles pid = none →
      ja3_socket_filter pid ja3_profiles buf jst = (some (0, jst), []) ∧
      ja3_tc_egress pid ja3_profiles buf jst = (some (TC_ACT_OK, jst), [])) ∧
    (∀ p, ja3_profiles pid = some p → p.enabled = 0 →
      ja3_socket_filter pid ja3_profiles buf jst = (some (0, jst), []) ∧
      ja3_tc_egress pid ja3_profiles buf jst = (some (TC_ACT_OK, jst), [])) := by
  refine ⟨?_, ?_, ?_⟩
  · intro h
    unfold tcp_fingerprint_spoof
    split_ifs with hfam
    · rfl
    · rw [h]
  · intro h
    unfold ja3_socket_filter ja3_tc_egress
    rw [h]
    exact ⟨rfl, rfl⟩
  · intro p hp he
    unfold ja3_socket_filter ja3_tc_egress
    simp only [hp]
    rw [if_pos he, if_pos he]
    exact ⟨rfl, rfl⟩

/-- Witness for C7 at concrete inputs: an absent TCP profile and a
present-but-disabled JA3 profile. -/
theorem lookup_miss_noop_passthrough_witness :
    tcp_fingerprint_spoof SockOp.connectCB 2 0 (fun _ => none) (fun _ => 0)
      tcpStatsZero = (tcpStatsZero, []) ∧
    ja3_socket_filter 0 (fun _ => some disabledJa3Profile) [] ja3StatsZero
      = (some (0, ja3StatsZero), []) :=
  ⟨(lookup_miss_noop_passthrough 2 0 (fun _ => none)
      (fun _ => some disabledJa3Profile) (fun _ => 0) [] tcpStatsZero
      ja3StatsZero).1 rfl,
   ((lookup_miss_noop_passthrough 2 0 (fun _ => none)
      (fun _ => some disabledJa3Profile) (fun _ => 0) [] tcpStatsZero
      ja3StatsZero).2.2 disabledJa3Profile rfl rfl).1⟩

theorem stepEcn_le (p : TcpProfile) (st : TcpStats) (calls : List SockOptCall) :
    TcpStatsLE st (stepEcn p st calls).1 := by
  unfold stepEcn
  split_ifs <;> exact update_stats_le false st

theorem stepNodelay_le (p : TcpProfile) (n : Nat) (oracle : Nat → Int)
    (st : TcpStats) (calls : List SockOptCall) :
    TcpStatsLE st (stepNodelay p n oracle st calls).1 := by
  unfold stepNodelay
  split_ifs with h1 h2
  · exact tcpStatsLE_trans (update_stats_le true st) (stepEcn_le p _ _)
  · exact stepEcn_le p st _
  · exact stepEcn_le p st _

theorem stepMss_le (p : TcpProfile) (n : Nat) (oracle : Nat → Int)
    (st : TcpStats) (calls : List SockOptCall) :
    TcpStatsLE st (stepMss p n oracle st calls).1 := by
  unfold stepMss
  split_ifs with h1 h2
  · exact update_stats_le true st
  · exact stepNodelay_le p _ oracle st _
  · exact stepNodelay_le p n oracle st calls

theorem stepTtl_le (p : TcpProfile) (family n : Nat) (oracle : Nat → Int)
    (st : TcpStats) (calls : List SockOptCall) :
    TcpStatsLE st (stepTtl p family n oracle st calls).1 := by
  unfold stepTtl
  split_ifs with h1 h2
  · exact update_stats_le true st
  · exact stepMss_le p _ oracle st _
  · exact stepMss_le p n oracle st calls

theorem stepWindow_le (p : TcpProfile) (family : Nat) (oracle : Nat → Int)
    (st : TcpStats) : TcpStatsLE st (stepWindow p family oracle st).1 := by
  unfold stepWindow
  split_ifs with h1 h2
  · exact update_stats_le true st
  · exact stepTtl_le p family 1 oracle st _
  · exact stepTtl_le p family 0 oracle st []

theorem tcp_passive_fst (family pid : Nat)
    (profiles : Nat → Option TcpProfile) (oracle : Nat → Int) (st : TcpStats) :
    (tcp_fingerprint_spoof SockOp.passiveEstablishedCB family pid profiles
      oracle st).1 = st := by
  unfold tcp_fingerprint_spoof
  split_ifs with hfam
  · rfl
  · cases hp : profiles pid with
    | none => rfl
    | some p => by_cases hw : p.window_size > 0 <;> simp [hw]

theorem tcp_spoof_le (op : SockOp) (family pid : Nat)
    (profiles : Nat → Option TcpProfile) (oracle : Nat → Int) (st : TcpStats) :
    TcpStatsLE st (tcp_fingerprint_spoof op family pid profiles oracle st).1 := by
  cases op with
  | connectCB =>
    unfold tcp_fingerprint_spoof
    split_ifs with hfam
    · exact tcpStatsLE_refl st
    · cases hp : profiles pid with
      | none => exact tcpStatsLE_refl st
      | some p => exact stepWindow_le p family oracle st
  | passiveEstablishedCB =>
    rw [tcp_passive_fst]
    exact tcpStatsLE_refl st
  | activeEstablishedCB =>
    unfold tcp_fingerprint_spoof
    split_ifs with hfam
    · exact tcpStatsLE_refl st
    · exact ⟨Nat.le_refl _, Nat.le_succ _, Nat.le_refl _⟩
  | other =>
    unfold tcp_fingerprint_spoof
    split_ifs with hfam
    · exact tcpStatsLE_refl st
    · exact tcpStatsLE_refl st

theorem ja3_socket_filter_mono (pid : Nat)
    (profiles : Nat → Option Ja3Profile) (buf : List Nat) (st : Ja3Stats) :
    ∃ v st1, (ja3_socket_filter pid profiles buf st).1 = some (v, st1) ∧
      Ja3StatsLE st st1 := by
  unfold ja3_socket_filter
  cases hp : profiles pid with
  | none => exact ⟨0, st, rfl, ja3StatsLE_refl st⟩
  | some p =>
    by_cases he : p.enabled = 0
    · refine ⟨0, st, ?_, ja3StatsLE_refl st⟩
      simp [he]
    · rcases hparse : parse_tls_client_hello buf st with ⟨o, reads⟩
      have hres := parse_result_cases buf st
      rw [hparse] at hres
      simp only [] at hres
      rcases hres with hres | hres <;> subst hres
      · refine ⟨0, st, ?_, ja3StatsLE_refl st⟩
        simp [he, hparse]
      · refine ⟨0, ja3_fetch_add Ja3Counter.modified
          (ja3_fetch_add Ja3Counter.seen st), ?_,
          ja3StatsLE_trans (ja3_fetch_add_le Ja3Counter.seen st)
            (ja3_fetch_add_le Ja3Counter.modified _)⟩
        simp [he, hparse, ja3_site_update_eq]

theorem ja3_tc_egress_mono (pid : Nat)
    (profiles : Nat → Option Ja3Profile) (buf : List Nat) (st : Ja3Stats) :
    ∃ v st1, (ja3_tc_egress pid profiles buf st).1 = some (v, st1) ∧
      Ja3StatsLE st st1 := by
  unfold ja3_tc_egress
  cases hp : profiles pid with
  | none => exact ⟨TC_ACT_OK, st, rfl, ja3StatsLE_refl st⟩
  | some p =>
    by_cases he : p.enabled = 0
    · refine ⟨TC_ACT_OK, st, ?_, ja3StatsLE_refl st⟩
      simp [he]
    · rcases hparse : parse_tls_client_hello buf st with ⟨o, reads⟩
      have hres := parse_result_cases buf st
      rw [hparse] at hres
      simp only [] at hres
      rcases hres with hres | hres <;> subst hres
      · refine ⟨TC_ACT_OK, st, ?_, ja3StatsLE_refl st⟩
        simp [he, hparse]
      · refine ⟨TC_ACT_OK, ja3_fetch_add Ja3Counter.seen st, ?_,
          ja3_fetch_add_le Ja3Counter.seen st⟩
        simp [he, hparse]

theorem ja3_sockops_mono (op : SockOp) (family remote_port pid : Nat)
    (profiles : Nat → Option Ja3Profile) (st : Ja3Stats) :
    ∃ v st1, ja3_sockops op family remote_port pid profiles st
        = some (v, st1) ∧ Ja3StatsLE st st1 := by
  unfold ja3_sockops
  split_ifs with h1 h2
  · exact ⟨0, st, rfl, ja3StatsLE_refl st⟩
  · exact ⟨0, st, rfl, ja3StatsLE_refl st⟩
  · cases op with
    | connectCB =>
      cases hp : profiles pid with
      | none => exact ⟨0, st, rfl, ja3StatsLE_refl st⟩
      | some p =>
        by_cases he : p.enabled ≠ 0
        · refine ⟨0, ja3_fetch_add Ja3Counter.passed st, ?_,
            ja3_fetch_add_le Ja3Counter.passed st⟩
          simp [he, ja3_site_update_eq]
        · refine ⟨0, st, ?_, ja3StatsLE_refl st⟩
          simp [he]
    | passiveEstablishedCB => exact ⟨0, st, rfl, ja3StatsLE_refl st⟩
    | activeEstablishedCB => exact ⟨0, st, rfl, ja3StatsLE_refl st⟩
    | other => exact ⟨0, st, rfl, ja3StatsLE_refl st⟩

/-- C5: under every operation of both programs (all sockops kinds on the
TCP side, and the socket-filter, TC-egress and sockops entry points on the
TLS side) no statistics counter ever decreases and no operation resets a
counter: the output statistics slot dominates the input slot pointwise,
and no TLS-side execution reaches undefined behaviour. -/
theorem stats_counters_monotone (op : SockOp)
    (family remote_port pid : Nat)
    (tcp_profiles : Nat → Option TcpProfile)
    (ja3_profiles : Nat → Option Ja3Profile) (oracle : Nat → Int)
    (buf : List Nat) (tst : TcpStats) (jst : Ja3Stats) :
    TcpStatsLE tst
      (tcp_fingerprint_spoof op family pid tcp_profiles oracle tst).1 ∧
    (∃ v st1, (ja3_socket_filter pid ja3_profiles buf jst).1 = some (v, st1) ∧
      Ja3StatsLE jst st1) ∧
    (∃ v st1, (ja3_tc_egress pid ja3_profiles buf jst).1 = some (v, st1) ∧
      Ja3StatsLE jst st1) ∧
    (∃ v st1, ja3_sockops op family remote_port pid ja3_profiles jst
        = some (v, st1) ∧ Ja3StatsLE jst st1) :=
  ⟨tcp_spoof_le op family pid tcp_profiles oracle tst,
   ja3_socket_filter_mono pid ja3_profiles buf jst,
   ja3_tc_egress_mono pid ja3_profiles buf jst,
   ja3_sockops_mono op family remote_port pid ja3_profiles jst⟩

/-- C4: on any structurally well-formed Ethernet/IPv4/TCP frame, if the
destination port is 443, the TLS record content type is 0x16 and the
handshake message type is 0x01 then `parse` reports a match and increments
the ClientHello-seen counter by exactly one; with content type 0x17 it
reports no-match and leaves the statistics unchanged; with any destination
port other than 443 it reports no-match and leaves the statistics
unchanged. -/
theorem parse_client_hello_match_semantics (buf : List Nat) (st : Ja3Stats)
    (hwf : WellFormedFrame buf) :
    (be16 (byte buf (tcpOff buf + 2)) (byte buf (tcpOff buf + 3)) = 443 →
      byte buf (payOff buf) = TLS_HANDSHAKE →
      byte buf (payOff buf + 5) = TLS_CLIENT_HELLO →
      (parse_tls_client_hello buf st).1 =
        some (1, { st with client_hello_seen := st.client_hello_seen + 1 })) ∧
    (be16 (byte buf (tcpOff buf + 2)) (byte buf (tcpOff buf + 3)) = 443 →
      byte buf (payOff buf) = 0x17 →
      (parse_tls_client_hello buf st).1 = some (0, st)) ∧
    (be16 (byte buf (tcpOff buf + 2)) (byte buf (tcpOff buf + 3)) ≠ 443 →
      (parse_tls_client_hello buf st).1 = some (0, st)) := by
  obtain ⟨h1, h2, h3, h4, h5, h6, h7⟩ := hwf
  refine ⟨?_, ?_, ?_⟩
  · intro hport hct hmt
    unfold parse_tls_client_hello parseIp parseTcp parseTlsRecord
      parseTlsHandshake
    rw [if_neg (by omega : ¬14 > buf.length)]
    rw [if_neg (by simp [h2])]
    rw [if_neg (by omega : ¬14 + 20 > buf.length)]
    rw [if_neg (by simp [h4])]
    rw [if_neg (by omega : ¬tcpOff buf + 20 > buf.length)]
    rw [if_neg (by simp [hport])]
    rw [if_neg (by omega : ¬payOff buf + 5 > buf.length)]
    rw [if_neg (by simp [hct])]
    rw [if_neg (by omega : ¬payOff buf + 5 + 4 > buf.length)]
    rw [if_neg (by simp [hmt])]
    rfl
  · intro hport hct
    unfold parse_tls_client_hello parseIp parseTcp parseTlsRecord
    rw [if_neg (by omega : ¬14 > buf.length)]
    rw [if_neg (by simp [h2])]
    rw [if_neg (by omega : ¬14 + 20 > buf.length)]
    rw [if_neg (by simp [h4])]
    rw [if_neg (by omega : ¬tcpOff buf + 20 > buf.length)]
    rw [if_neg (by simp [hport])]
    rw [if_neg (by omega : ¬payOff buf + 5 > buf.length)]
    rw [if_pos (by rw [hct]; decide : byte buf (payOff buf) ≠ TLS_HANDSHAKE)]
  · intro hport
    unfold parse_tls_client_hello parseIp parseTcp
    rw [if_neg (by omega : ¬14 > buf.length)]
    rw [if_neg (by simp [h2])]
    rw [if_neg (by omega : ¬14 + 20 > buf.length)]
    rw [if_neg (by simp [h4])]
    rw [if_neg (by omega : ¬tcpOff buf + 20 > buf.length)]
    rw [if_pos hport]

/-- Witness for C4 at the concrete 63-byte ClientHello frame and its
content-type and destination-port mutants. -/
theorem parse_client_hello_match_semantics_witness :
    (parse_tls_client_hello clientHelloFrame ja3StatsZero).1 =
      some (1, { ja3StatsZero with
        client_hello_seen := ja3StatsZero.client_hello_seen + 1 }) ∧
    (parse_tls_client_hello appDataFrame ja3StatsZero).1 =
      some (0, ja3StatsZero) ∧
    (parse_tls_client_hello port80Frame ja3StatsZero).1 =
      some (0, ja3StatsZero) :=
  ⟨(parse_client_hello_match_semantics clientHelloFrame ja3StatsZero
      (by decide)).1 (by decide) (by decide) (by decide),
   (parse_client_hello_match_semantics appDataFrame ja3StatsZero
      (by decide)).2.1 (by decide) (by decide),
   (parse_client_hello_match_semantics port80Frame ja3StatsZero
      (by decide)).2.2 (by decide)⟩

/-- C9: on the socket-filter path, whenever the parser recognises a
ClientHello and the profile is present and enabled, the invocation
increments both the ClientHello-seen and the ClientHello-modified counter
by exactly one (and no other counter), while the packet itself is only
read, never modified. -/
theorem socket_filter_seen_and_modified_increment (pid : Nat)
    (profiles : Nat → Option Ja3Profile) (buf : List Nat) (st st1 : Ja3Stats)
    (p : Ja3Profile) (hp : profiles pid = some p) (he : ¬p.enabled = 0)
    (reads : List Nat)
    (hm : parse_tls_client_hello buf st = (some (1, st1), reads)) :
    (ja3_socket_filter pid profiles buf st).1 =
      some (0, { st1 with
        client_hello_modified := st1.client_hello_modified + 1 }) ∧
    st1.client_hello_seen = st.client_hello_seen + 1 ∧
    st1.client_hello_modified = st.client_hello_modified ∧
    st1.errors = st.errors ∧
    st1.packets_passed = st.packets_passed := by
  have hres := parse_result_cases buf st
  rw [hm] at hres
  simp only [] at hres
  rcases hres with hres | hres
  · exfalso
    simp at hres
  · have hst1 : st1 = ja3_fetch_add Ja3Counter.seen st := by
      simpa using hres
    subst hst1
    refine ⟨?_, rfl, rfl, rfl, rfl⟩
    unfold ja3_socket_filter
    simp only [hp]
    rw [if_neg he, hm]
    simp only [ja3_site_update_eq]
    rfl

/-- Witness for C9 at the concrete ClientHello frame with a present,
enabled profile. -/
theorem socket_filter_seen_and_modified_increment_witness :
    (ja3_socket_filter 0 (fun _ => some enabledJa3Profile) clientHelloFrame
      ja3StatsZero).1 = some (0, ⟨1, 1, 0, 0⟩) :=
  (socket_filter_seen_and_modified_increment 0
    (fun _ => some enabledJa3Profile) clientHelloFrame ja3StatsZero
    ⟨1, 0, 0, 0⟩ enabledJa3Profile rfl (by decide)
    [12, 13, 23, 14, 36, 37, 46, 54, 59] (by decide)).1

theorem callConfigured_ttlCall (p : TcpProfile) (family : Nat)
    (h : p.ttl > 0) : CallConfigured p (ttlCall family) := by
  unfold ttlCall
  split_ifs <;> exact h

theorem stepEcn_calls_configured (p : TcpProfile) (st : TcpStats)
    (calls : List SockOptCall) (hc : ∀ x ∈ calls, CallConfigured p x) :
    ∀ x ∈ (stepEcn p st calls).2, CallConfigured p x := by
  unfold stepEcn
  split_ifs with h1
  · intro x hx
    rcases List.mem_append.1 hx with hx | hx
    · exact hc x hx
    · simp at hx
      subst hx
      exact h1
  · exact hc

theorem stepNodelay_calls_configured (p : TcpProfile) (n : Nat)
    (oracle : Nat → Int) (st : TcpStats) (calls : List SockOptCall)
    (hc : ∀ x ∈ calls, CallConfigured p x) :
    ∀ x ∈ (stepNodelay p n oracle st calls).2, CallConfigured p x := by
  unfold stepNodelay
  have hext : p.no_delay ≠ 0 →
      ∀ x ∈ calls ++ [SockOptCall.nodelay], CallConfigured p x := by
    intro h1 x hx
    rcases List.mem_append.1 hx with hx | hx
    · exact hc x hx
    · simp at hx
      subst hx
      exact h1
  split_ifs with h1 h2
  · exact stepEcn_calls_configured p _ _ (hext h1)
  · exact stepEcn_calls_configured p _ _ (hext h1)
  · exact stepEcn_calls_configured p _ _ hc

theorem stepMss_calls_configured (p : TcpProfile) (n : Nat)
    (oracle : Nat → Int) (st : TcpStats) (calls : List SockOptCall)
    (hc : ∀ x ∈ calls, CallConfigured p x) :
    ∀ x ∈ (stepMss p n oracle st calls).2, CallConfigured p x := by
  unfold stepMss
  have hext : p.mss > 0 →
      ∀ x ∈ calls ++ [SockOptCall.maxseg], CallConfigured p x := by
    intro h1 x hx
    rcases List.mem_append.1 hx with hx | hx
    · exact hc x hx
    · simp at hx
      subst hx
      exact h1
  split_ifs with h1 h2
  · exact hext h1
  · exact stepNodelay_calls_configured p _ oracle st _ (hext h1)
  · exact stepNodelay_calls_configured p n oracle st calls hc

theorem stepTtl_calls_configured (p : TcpProfile) (family n : Nat)
    (oracle : Nat → Int) (st : TcpStats) (calls : List SockOptCall)
    (hc : ∀ x ∈ calls, CallConfigured p x) :
    ∀ x ∈ (stepTtl p family n oracle st calls).2, CallConfigured p x := by
  unfold stepTtl
  have hext : p.ttl > 0 →
      ∀ x ∈ calls ++ [ttlCall family], CallConfigured p x := by
    intro h1 x hx
    rcases List.mem_append.1 hx with hx | hx
    · exact hc x hx
    · simp at hx
      subst hx
      exact callConfigured_ttlCall p family h1
  split_ifs with h1 h2
  · exact hext h1
  · exact stepMss_calls_configured p _ oracle st _ (hext h1)
  · exact stepMss_calls_configured p n oracle st calls hc

theorem stepWindow_calls_configured (p : TcpProfile) (family : Nat)
    (oracle : Nat → Int) (st : TcpStats) :
    ∀ x ∈ (stepWindow p family oracle st).2, CallConfigured p x := by
  unfold stepWindow
  have hbase : p.window_size > 0 →
      ∀ x ∈ [SockOptCall.windowClamp], CallConfigured p x := by
    intro h1 x hx
    simp at hx
    subst hx
    exact h1
  split_ifs with h1 h2
  · exact hbase h1
  · exact stepTtl_calls_configured p family 1 oracle st _ (hbase h1)
  · exact stepTtl_calls_configured p family 0 oracle st [] (by simp)

theorem tcp_connect_eq (family pid : Nat)
    (profiles : Nat → Option TcpProfile) (oracle : Nat → Int) (st : TcpStats)
    (p : TcpProfile) (hfam : family = AF_INET ∨ family = AF_INET6)
    (hp : profiles pid = some p) :
    tcp_fingerprint_spoof SockOp.connectCB family pid profiles oracle st
      = stepWindow p family oracle st := by
  unfold tcp_fingerprint_spoof
  rw [if_neg (by rcases hfam with h | h <;> simp [h])]
  simp only [hp]

/-- C1 counterexample: the claim fails on the code at explicit inputs.
With a profile whose only non-sentinel field is `sack_permitted` the
outbound-connect handler issues no mutation call at all, so not every
configured field is applied; and with window clamp and TTL configured,
a failing window-clamp mutation leaves only that one call in the log —
the TTL mutation is never attempted, so a failure does abort the
remaining mutations. -/
theorem tcp_connect_apply_all_counterexample :
    ((tcp_fingerprint_spoof SockOp.connectCB AF_INET 7
        (fun _ => some sackOnlyProfile) (fun _ => 0) tcpStatsZero).2 = [] ∧
      sackOnlyProfile.sack_permitted ≠ 0) ∧
    (tcp_fingerprint_spoof SockOp.connectCB AF_INET 7
        (fun _ => some windowTtlProfile) (fun _ => 1) tcpStatsZero
        = (⟨0, 0, 1⟩, [SockOptCall.windowClamp]) ∧
      windowTtlProfile.ttl ≠ 0) := by
  decide

/-- C1 amended: on an outbound connect with a present profile the handler
attempts mutations only for the five supported fields (window clamp, TTL,
MSS, no-delay, ECN) that are non-sentinel, in that fixed order; a failure
of the window-clamp, TTL or MSS mutation increments the error counter and
aborts the remaining mutations together with the final success-counter
update; a no-delay failure increments the error counter without aborting;
an ECN failure is ignored; when no window/TTL/MSS mutation fails the
handler reaches the end of the sequence and increments the success
counter. -/
theorem tcp_connect_mutation_failure_semantics (p : TcpProfile)
    (family pid : Nat) (profiles : Nat → Option TcpProfile)
    (oracle : Nat → Int) (st : TcpStats)
    (hfam : family = AF_INET ∨ family = AF_INET6)
    (hp : profiles pid = some p) :
    (∀ c ∈ (tcp_fingerprint_spoof SockOp.connectCB family pid profiles
        oracle st).2, CallConfigured p c) ∧
    (p.window_size > 0 → oracle 0 ≠ 0 →
      tcp_fingerprint_spoof SockOp.connectCB family pid profiles oracle st
        = (update_stats true st, [SockOptCall.windowClamp])) ∧
    (p.ttl > 0 → (∀ i, i < nCallsBeforeTtl p → oracle i = 0) →
      oracle (nCallsBeforeTtl p) ≠ 0 →
      tcp_fingerprint_spoof SockOp.connectCB family pid profiles oracle st
        = (update_stats true st,
           (if p.window_size > 0 then [SockOptCall.windowClamp] else []) ++
             [ttlCall family])) ∧
    (p.mss > 0 → (∀ i, i < nCallsBeforeMss p → oracle i = 0) →
      oracle (nCallsBeforeMss p) ≠ 0 →
      tcp_fingerprint_spoof SockOp.connectCB family pid profiles oracle st
        = (update_stats true st,
           (if p.window_size > 0 then [SockOptCall.windowClamp] else []) ++
             (if p.ttl > 0 then [ttlCall family] else []) ++
             [SockOptCall.maxseg])) ∧
    (p.no_delay ≠ 0 → (∀ i, i < nCallsBeforeNodelay p → oracle i = 0) →
      oracle (nCallsBeforeNodelay p) ≠ 0 →
      tcp_fingerprint_spoof SockOp.connectCB family pid profiles oracle st
        = (update_stats false (update_stats true st),
           configuredCalls p family)) ∧
    ((∀ i, oracle i = 0) →
      tcp_fingerprint_spoof SockOp.connectCB family pid profiles oracle st
        = (update_stats false st, configuredCalls p family)) := by
  rw [tcp_connect_eq family pid profiles oracle st p hfam hp]
  refine ⟨stepWindow_calls_configured p family oracle st, ?_, ?_, ?_, ?_, ?_⟩
  · intro hw h0
    unfold stepWindow
    rw [if_pos hw, if_pos h0]
  · intro ht hpre hfail
    simp only [nCallsBeforeTtl] at hpre hfail
    unfold stepWindow stepTtl
    by_cases hw : p.window_size > 0
    · simp only [hw, if_true] at hpre hfail ⊢
      rw [if_neg (by simp [hpre 0 (by omega)]), if_pos ht, if_pos hfail]
    · simp only [hw, if_false] at hpre hfail ⊢
      rw [if_pos ht, if_pos hfail]
  · intro hm hpre hfail
    simp only [nCallsBeforeMss, nCallsBeforeTtl] at hpre hfail
    unfold stepWindow stepTtl stepMss
    by_cases hw : p.window_size > 0 <;> by_cases ht : p.ttl > 0 <;>
      simp only [hw, ht, if_true, if_false] at hpre hfail ⊢ <;>
      simp [hw, ht, hm, hfail, hpre 0, hpre 1, Nat.lt_irrefl]
  · intro hn hpre hfail
    simp only [nCallsBeforeNodelay, nCallsBeforeMss, nCallsBeforeTtl]
      at hpre hfail
    unfold stepWindow stepTtl stepMss stepNodelay stepEcn configuredCalls
    by_cases hw : p.window_size > 0 <;> by_cases ht : p.ttl > 0 <;>
      by_cases hm : p.mss > 0 <;>
      simp only [hw, ht, hm, if_true, if_false] at hpre hfail ⊢ <;>
      by_cases he : p.ecn ≠ 0 <;>
      simp [hw, ht, hm, hn, he, hfail, hpre 0, hpre 1, hpre 2]
  · intro hall
    unfold stepWindow stepTtl stepMss stepNodelay stepEcn configuredCalls
    by_cases hw : p.window_size > 0 <;> by_cases ht : p.ttl > 0 <;>
      by_cases hm : p.mss > 0 <;> by_cases hn : p.no_delay ≠ 0 <;>
      by_cases he : p.ecn ≠ 0 <;>
      simp [hw, ht, hm, hn, he, hall]

/-- Witness for the amended C1 at a concrete profile, oracle and stats
slot: a failing window-clamp mutation yields exactly one issued call, an
error-counter increment and no success-counter update. -/
theorem tcp_connect_mutation_failure_semantics_witness :
    tcp_fingerprint_spoof SockOp.connectCB 2 5 (fun _ => some windowTtlProfile)
      (fun _ => 1) ⟨2, 3, 4⟩
      = (update_stats true ⟨2, 3, 4⟩, [SockOptCall.windowClamp]) :=
  (tcp_connect_mutation_failure_semantics windowTtlProfile 2 5
      (fun _ => some windowTtlProfile) (fun _ => 1) ⟨2, 3, 4⟩
      (Or.inl rfl) rfl).2.1 (by decide) (by decide)

/-- C3 counterexample: with the profile {mss = 1460, ttl = 64,
window_size = 0} and every setsockopt call failing, the outbound-connect
path issues only one mutation call (the TTL call; the MSS call is never
attempted) and does not increment the success counter, contradicting
"exactly two mutation calls and success counter incremented once
regardless of failures". -/
theorem tcp_connect_mss_ttl_profile_counterexample :
    (tcp_fingerprint_spoof SockOp.connectCB AF_INET 3
        (fun _ => some mssTtlProfile) (fun _ => 1) tcpStatsZero).2
      = [SockOptCall.ttlV4] ∧
    (tcp_fingerprint_spoof SockOp.connectCB AF_INET 3
        (fun _ => some mssTtlProfile) (fun _ => 1) tcpStatsZero).1
      = ⟨0, 0, 1⟩ ∧
    ¬((tcp_fingerprint_spoof SockOp.connectCB AF_INET 3
        (fun _ => some mssTtlProfile) (fun _ => 1) tcpStatsZero).2.length = 2 ∧
      (tcp_fingerprint_spoof SockOp.connectCB AF_INET 3
        (fun _ => some mssTtlProfile) (fun _ => 1) tcpStatsZero).1.connections_modified
        = tcpStatsZero.connections_modified + 1) := by
  decide

/-- C3 amended: with the profile {mss = 1460, ttl = 64, window_size = 0,
all else sentinel}, the outbound-connect path issues the TTL call first;
if it fails, the MSS call is never issued and the error counter (not the
success counter) is incremented; if the TTL call succeeds the MSS call
follows, a failure again incrementing the error counter only; only when
both succeed are exactly two calls issued and the success counter
incremented exactly once. -/
theorem tcp_connect_mss_ttl_profile_semantics (family pid : Nat)
    (profiles : Nat → Option TcpProfile) (oracle : Nat → Int) (st : TcpStats)
    (hfam : family = AF_INET ∨ family = AF_INET6)
    (hp : profiles pid = some mssTtlProfile) :
    (oracle 0 ≠ 0 →
      tcp_fingerprint_spoof SockOp.connectCB family pid profiles oracle st
        = (update_stats true st, [ttlCall family])) ∧
    (oracle 0 = 0 → oracle 1 ≠ 0 →
      tcp_fingerprint_spoof SockOp.connectCB family pid profiles oracle st
        = (update_stats true st, [ttlCall family, SockOptCall.maxseg])) ∧
    (oracle 0 = 0 → oracle 1 = 0 →
      tcp_fingerprint_spoof SockOp.connectCB family pid profiles oracle st
        = (update_stats false st, [ttlCall family, SockOptCall.maxseg])) := by
  rw [tcp_connect_eq family pid profiles oracle st mssTtlProfile hfam hp]
  unfold stepWindow stepTtl stepMss stepNodelay stepEcn
  refine ⟨?_, ?_, ?_⟩
  · intro h0
    simp [mssTtlProfile, h0]
  · intro h0 h1
    simp [mssTtlProfile, h0, h1]
  · intro h0 h1
    simp [mssTtlProfile, h0, h1]

/-- Witness for the amended C3: with both calls succeeding the result is
exactly two calls (TTL then MSS) and one success-counter increment. -/
theorem tcp_connect_mss_ttl_profile_semantics_witness :
    tcp_fingerprint_spoof SockOp.connectCB 2 3 (fun _ => some mssTtlProfile)
      (fun _ => 0) tcpStatsZero
      = (update_stats false tcpStatsZero, [ttlCall 2, SockOptCall.maxseg]) :=
  (tcp_connect_mss_ttl_profile_semantics 2 3 (fun _ => some mssTtlProfile)
    (fun _ => 0) tcpStatsZero (Or.inl rfl) rfl).2.2 rfl rfl
